import Mathlib

/-!
Verification of the data pipeline of the Türkiye earthquake dashboard
(src/app.py). The script is a linear pipeline: fetch (lines 13-46),
normalized table, magnitude filter (line 76), count metric (line 79),
in-place gap computation that mutates the filtered table (lines 83-86),
a 24-hour gap metric computed over the full table (lines 87-101), and
the widgets and CSV exports (lines 70, 104-146).

Modelling conventions: a table is a `List Row` in positional order
(pandas row order); timestamps are POSIX seconds (`Int`); the `date_s`
column (calendar date) is days since the epoch; magnitudes, latitudes
and longitudes are `Rat` (the script coerces them to numeric before
use, so rows carry numeric values); `pandas.Series.diff` yields `none`
for the first position (NaN) and the numeric difference elsewhere;
`sort_values` is modelled by the stable `List.insertionSort`.
-/

namespace TeqDashboard

/-- One normalized event record: row of `df` after lines 34-45 of
src/app.py (country filter, timestamp parsing, numeric coercions). -/
structure Row where
  date : Int
  magnitude : Rat
  latitude : Rat
  longitude : Rat
  location : String
  country : String
deriving DecidableEq

/-- The derived `date_s` column (line 38): the calendar date of the
timestamp, as days since the epoch. -/
def Row.dateOnly (r : Row) : Int := Int.fdiv r.date 86400

/-- One element of the JSON response body before normalization. -/
structure RawRecord where
  date : Int
  magnitude : Rat
  latitude : Rat
  longitude : Rat
  location : String
  country : String
deriving DecidableEq

/-- Column derivation of lines 37-45 applied to one raw record. -/
def normalizeRecord (x : RawRecord) : Row :=
  ⟨x.date, x.magnitude, x.latitude, x.longitude, x.location, x.country⟩

/-- Lines 31-45: keep only rows whose country equals the literal
target string, then derive columns. -/
def normalize (recs : List RawRecord) : List Row :=
  (recs.filter (fun x => decide (x.country = "Türkiye"))).map normalizeRecord

/-- Outcome of the HTTP GET of line 24: either a transport error
(requests raises) or a response with a status code and a body; the
body is `some records` when it parses as a JSON array of records and
`none` otherwise. -/
structure HttpResponse where
  status : Nat
  body : Option (List RawRecord)

/-- Transport-level outcome of `requests.get`. -/
inductive HttpOutcome where
  | netError
  | response (resp : HttpResponse)

/-- Result of `get_earthquake_data`: the raised exception or the
normalized table. -/
inductive FetchResult where
  | netError
  | httpError (status : Nat)
  | parseError
  | ok (df : List Row)
deriving DecidableEq

/-- Semantics of `response.raise_for_status()` (line 25): requests
raises `HTTPError` exactly when `400 <= status < 600`. -/
def raiseForStatus (status : Nat) : Bool :=
  decide (400 ≤ status ∧ status < 600)

/-- Lines 14-46: `get_earthquake_data`. A transport error propagates;
`raise_for_status` runs before the body is parsed (line 25 precedes
line 28); then the body is parsed and normalized. -/
def get_earthquake_data : HttpOutcome → FetchResult
  | HttpOutcome.netError => FetchResult.netError
  | HttpOutcome.response resp =>
    if raiseForStatus resp.status then FetchResult.httpError resp.status
    else
      match resp.body with
      | none => FetchResult.parseError
      | some recs => FetchResult.ok (normalize recs)

/-- Line 76: the magnitude Filter Stage, an inclusive range predicate
over the coerced magnitude column. -/
def magFilter (lo hi : Rat) (df : List Row) : List Row :=
  df.filter (fun r => decide (lo ≤ r.magnitude) && decide (r.magnitude ≤ hi))

/-- Sort key of line 83: ascending `date_s`. -/
def dateLe (a b : Row) : Prop := a.dateOnly ≤ b.dateOnly

/-- Sort key of line 105: ascending magnitude. -/
def magLe (a b : Row) : Prop := a.magnitude ≤ b.magnitude

/-- Sort key of line 132: descending magnitude. -/
def magGe (a b : Row) : Prop := b.magnitude ≤ a.magnitude

instance : DecidableRel dateLe :=
  fun a b => inferInstanceAs (Decidable (a.dateOnly ≤ b.dateOnly))

instance : DecidableRel magLe :=
  fun a b => inferInstanceAs (Decidable (a.magnitude ≤ b.magnitude))

instance : DecidableRel magGe :=
  fun a b => inferInstanceAs (Decidable (b.magnitude ≤ a.magnitude))

instance : IsTotal Row dateLe := ⟨fun a b => Int.le_total a.dateOnly b.dateOnly⟩

instance : IsTrans Row dateLe := ⟨fun _ _ _ hab hbc => le_trans hab hbc⟩

instance : IsTotal Row magLe := ⟨fun a b => le_total a.magnitude b.magnitude⟩

instance : IsTrans Row magLe := ⟨fun _ _ _ hab hbc => le_trans hab hbc⟩

instance : IsTotal Row magGe := ⟨fun a b => (le_total a.magnitude b.magnitude).symm⟩

instance : IsTrans Row magGe := ⟨fun _ _ _ hab hbc => le_trans hbc hab⟩

/-- Line 83: `df_filtered.sort_values("date_s")`. -/
def sortByDate (l : List Row) : List Row := l.insertionSort dateLe

/-- Line 105: `df_filtered.sort_values("magnitude_num", ascending=True)`. -/
def sortByMagAsc (l : List Row) : List Row := l.insertionSort magLe

/-- Line 132: `df_filtered.sort_values("magnitude", ascending=False)`.
Pandas' default quicksort is not stable, so the order of rows with
equal magnitude is not guaranteed by the program; this definition
picks one sorted permutation, and every property proved about line
132's output is stated for an arbitrary sorted permutation. -/
def sortByMagDesc (l : List Row) : List Row := l.insertionSort magGe

/-- Tail of the `date_s` diff column: each row paired with the
difference (in minutes) between its calendar date and the previous
row's, `some` everywhere past the first row. -/
def timeDiffGo (prev : Row) : List Row → List (Row × Option Int)
  | [] => []
  | r :: rs => (r, some ((r.dateOnly - prev.dateOnly) * 1440)) :: timeDiffGo r rs

/-- Lines 84 and 87: `df["date_s"].diff()` converted to minutes. The
first position has no predecessor and is `none` (NaN). -/
def timeDiffCol : List Row → List (Row × Option Int)
  | [] => []
  | r :: rs => (r, none) :: timeDiffGo r rs

/-- Line 85: `dropna(subset=["time_diff"])`, keeping the rows whose
diff is defined. -/
def dropNaTimeDiff (l : List (Row × Option Int)) : List Row :=
  (l.filter (fun p => p.2.isSome)).map Prod.fst

/-- The table every widget past line 85 consumes: the filtered table
after the in-place sort (line 83), diff (line 84) and dropna (line
85). Lines 104 and 115-116 re-coerce magnitude; on numeric magnitudes
they change nothing. -/
def downstreamTable (df : List Row) (lo hi : Rat) : List Row :=
  dropNaTimeDiff (timeDiffCol (sortByDate (magFilter lo hi df)))

/-- Line 90 window predicate: index timestamp within the last 24
hours of now (inclusive lower bound). -/
def inWindow (now : Int) (r : Row) : Bool := decide (now - 86400 ≤ r.date)

/-- Lines 87-91: the `time_diff` column is computed over the full
normalized table, then restricted to the 24-hour window. -/
def windowPairs (df : List Row) (now : Int) : List (Row × Option Int) :=
  (timeDiffCol df).filter (fun p => inWindow now p.1)

/-- Mean of a list of rationals; `none` models the NaT mean of an
empty (or all-undefined) series. -/
def ratMean (l : List Rat) : Option Rat :=
  if l = [] then none else some (l.sum / (l.length : Rat))

/-- Successive timestamp differences in minutes, past a previous row. -/
def indexDiffsGo (prev : Row) : List Row → List Rat
  | [] => []
  | r :: rs => ((r.date - prev.date : Int) : Rat) / 60 :: indexDiffsGo r rs

/-- Line 97: `index.to_series().diff()` in minutes, with the leading
NaT dropped (pandas `mean` skips it). -/
def indexDiffsMinutes : List Row → List Rat
  | [] => []
  | r :: rs => indexDiffsGo r rs

/-- What the sidebar shows for the last-24-hours metric: either the
warning of line 101 or the value written at line 98 (`none` models a
NaT mean, displayed when the window holds a single row). -/
inductive Gap24 where
  | noData
  | shown (v : Option Rat)
deriving DecidableEq

/-- Lines 90-101: the guard of line 92 demands a nonempty window whose
`date_s`-based diffs are all defined; the displayed value (line 97) is
the mean of the timestamp diffs inside the window. -/
def gap24 (df : List Row) (now : Int) : Gap24 :=
  if windowPairs df now ≠ [] ∧ ∀ p ∈ windowPairs df now, p.2.isSome = true then
    Gap24.shown (ratMean (indexDiffsMinutes ((windowPairs df now).map Prod.fst)))
  else Gap24.noData

/-- Line 122: `value_counts()` — occurrences of each distinct
magnitude (display order not modelled). -/
def valueCounts (l : List Rat) : List (Rat × Nat) :=
  l.dedup.map (fun v => (v, l.count v))

/-- Line 117: `resample("D").max()` — for each day present, the
maximum magnitude of that day (calendar gaps not modelled). -/
def dailyMax (l : List Row) : List (Int × Option Rat) :=
  ((l.map Row.dateOnly).dedup).map
    (fun d => (d, ((l.filter (fun r => decide (r.dateOnly = d))).map Row.magnitude).max?))

/-- Injective textual encoding standing in for the decimal rendering
of a rational field in the CSV. -/
def encodeRat (q : Rat) : String := toString q.num ++ "/" ++ toString q.den

/-- One CSV line: the serialized fields of one row; the magnitude cell
sits at position 1. -/
def csvLine (r : Row) : List String :=
  [toString r.date, encodeRat r.magnitude, encodeRat r.latitude,
   encodeRat r.longitude, r.location, r.country]

/-- Lines 70 and 137: `to_csv`, one line per record. -/
def toCsv (l : List Row) : List (List String) := l.map csvLine

/-- Re-parsing step of the round-trip: the magnitude cell of every
line of a CSV. -/
def csvMagnitudes (csv : List (List String)) : List String :=
  csv.filterMap (fun line => line.get? 1)

/-- Everything the script renders or writes after the fetch. -/
structure DashboardOutput where
  csvWritten : List (List String)
  count : Nat
  gap24display : Gap24
  mapTable : List Row
  dailyMaxChart : List (Int × Option Rat)
  magCounts : List (Rat × Nat)
  top10 : List Row
  csvDownload : List (List String)
deriving DecidableEq

/-- Lines 67-146 as a function of the normalized table, the two slider
bounds and the clock: the file written at line 70 serializes the
unfiltered table; the count of line 79 is taken before the mutation of
lines 83-85; every widget from line 104 on, and the download of line
139, consume the mutated table. -/
def dashboard (df : List Row) (lo hi : Rat) (now : Int) : DashboardOutput :=
  let df_filtered := magFilter lo hi df
  let df_mutated := dropNaTimeDiff (timeDiffCol (sortByDate df_filtered))
  { csvWritten := toCsv df
    count := df_filtered.length
    gap24display := gap24 df now
    mapTable := sortByMagAsc df_mutated
    dailyMaxChart := dailyMax df_mutated
    magCounts := valueCounts (df_mutated.map Row.magnitude)
    top10 := (sortByMagDesc df_mutated).take 10
    csvDownload := toCsv df_mutated }

/-! Helper lemmas shared by several claims. -/

theorem timeDiffGo_sndIsSome (prev : Row) (rs : List Row) :
    ∀ p ∈ timeDiffGo prev rs, p.2.isSome = true := by
  induction rs generalizing prev with
  | nil => intro p hp; cases hp
  | cons r rs ih =>
    intro p hp
    rcases List.mem_cons.mp hp with h | h
    · subst h; rfl
    · exact ih r p h

theorem timeDiffGo_map_fst (prev : Row) (rs : List Row) :
    (timeDiffGo prev rs).map Prod.fst = rs := by
  induction rs generalizing prev with
  | nil => rfl
  | cons r rs ih => simp [timeDiffGo, ih r]

theorem dropNaTimeDiff_timeDiffCol (l : List Row) :
    dropNaTimeDiff (timeDiffCol l) = l.tail := by
  cases l with
  | nil => rfl
  | cons r rs =>
    unfold timeDiffCol dropNaTimeDiff
    rw [List.filter_cons]
    have hall : (timeDiffGo r rs).filter (fun p => p.2.isSome) = timeDiffGo r rs :=
      List.filter_eq_self.mpr (timeDiffGo_sndIsSome r rs)
    simp [hall, timeDiffGo_map_fst]

theorem downstreamTable_eq_tail (df : List Row) (lo hi : Rat) :
    downstreamTable df lo hi = (sortByDate (magFilter lo hi df)).tail :=
  dropNaTimeDiff_timeDiffCol (sortByDate (magFilter lo hi df))

theorem timeDiffCol_snd_none {l : List Row} {p : Row × Option Int}
    (hp : p ∈ timeDiffCol l) (hn : p.2 = none) : ∃ rs, l = p.1 :: rs := by
  cases l with
  | nil => cases hp
  | cons r rs =>
    unfold timeDiffCol at hp
    rcases List.mem_cons.mp hp with h | h
    · exact ⟨rs, by rw [h]⟩
    · have := timeDiffGo_sndIsSome r rs p h
      rw [hn] at this
      cases this

theorem indexDiffsGo_length (prev : Row) (rs : List Row) :
    (indexDiffsGo prev rs).length = rs.length := by
  induction rs generalizing prev with
  | nil => rfl
  | cons r rs ih => simp [indexDiffsGo, ih r]

theorem indexDiffsMinutes_length (l : List Row) :
    (indexDiffsMinutes l).length = l.length - 1 := by
  cases l with
  | nil => rfl
  | cons r rs => simp [indexDiffsMinutes, indexDiffsGo_length]

theorem ratMean_isSome (l : List Rat) : (ratMean l).isSome = true ↔ l ≠ [] := by
  unfold ratMean
  split
  · simp [*]
  · simp [*]

theorem csvMagnitudes_toCsv (l : List Row) :
    csvMagnitudes (toCsv l) = l.map (fun r => encodeRat r.magnitude) := by
  induction l with
  | nil => rfl
  | cons r rs ih =>
    show encodeRat r.magnitude :: List.filterMap (fun line => line.get? 1) (List.map csvLine rs)
      = encodeRat r.magnitude :: List.map (fun x => encodeRat x.magnitude) rs
    exact congrArg _ ih

/-! Claim theorems. -/

/-- C1: every row surviving the magnitude Filter Stage (line 76)
satisfies `lo ≤ magnitude ≤ hi`, and every input row whose magnitude
lies within `[lo, hi]` is retained. -/
theorem magFilter_sound_and_complete (df : List Row) (lo hi : Rat) :
    (∀ r ∈ magFilter lo hi df, lo ≤ r.magnitude ∧ r.magnitude ≤ hi) ∧
    (∀ r ∈ df, lo ≤ r.magnitude → r.magnitude ≤ hi → r ∈ magFilter lo hi df) := by
  constructor
  · intro r hr
    have h := (List.mem_filter.mp hr).2
    simpa using h
  · intro r hr h1 h2
    exact List.mem_filter.mpr ⟨hr, by simpa using And.intro h1 h2⟩

/-- Concrete instance of `magFilter_sound_and_complete`. -/
theorem magFilter_sound_and_complete_witness :
    (0 : Rat) ≤ (⟨100, 5, 38, 37, "w1", "Türkiye"⟩ : Row).magnitude ∧
    (⟨100, 5, 38, 37, "w1", "Türkiye"⟩ : Row).magnitude ≤ 8 :=
  (magFilter_sound_and_complete [⟨100, 5, 38, 37, "w1", "Türkiye"⟩] 0 8).1
    ⟨100, 5, 38, 37, "w1", "Türkiye"⟩ (by decide)

/-- C2: the Total Earthquakes Count metric (line 79) equals exactly
the row count of the table produced by the magnitude filter of line
76, with no offset applied. -/
theorem total_count_eq_filtered_length (df : List Row) (lo hi : Rat) (now : Int) :
    (dashboard df lo hi now).count = (magFilter lo hi df).length := rfl

/-- C6: the magnitude Filter Stage is idempotent — re-filtering an
already-filtered table with the same bounds is a no-op. -/
theorem magFilter_idempotent (df : List Row) (lo hi : Rat) :
    magFilter lo hi (magFilter lo hi df) = magFilter lo hi df := by
  unfold magFilter
  rw [List.filter_filter]
  congr 1
  funext r
  exact Bool.and_self _

theorem gap24_eq_noData_iff (df : List Row) (now : Int) :
    gap24 df now = Gap24.noData ↔
      windowPairs df now = [] ∨ ∃ p ∈ windowPairs df now, p.2 = none := by
  unfold gap24
  split
  next hc =>
    rcases hc with ⟨hne, hall⟩
    constructor
    · intro h; cases h
    · rintro (h | ⟨p, hp, hn⟩)
      · exact absurd h hne
      · have := hall p hp
        rw [hn] at this
        cases this
  next hc =>
    refine iff_of_true rfl ?_
    by_cases hw : windowPairs df now = []
    · exact Or.inl hw
    · refine Or.inr ?_
      have h2 : ¬ ∀ p ∈ windowPairs df now, p.2.isSome = true :=
        fun hall => hc ⟨hw, hall⟩
      push_neg at h2
      rcases h2 with ⟨p, hp, hns⟩
      exact ⟨p, hp, Option.not_isSome_iff_eq_none.mp (by simpa using hns)⟩

/-- C4 (amended): the 24-hour metric reports "no data" iff the window
is empty or contains the positionally first row of the normalized
table (whose diff is NaN); when the numeric branch is taken, the
displayed mean is defined iff the window holds at least two rows (with
exactly one non-first row in the window the branch displays an
undefined NaT mean). -/
theorem gap24_amended (df : List Row) (now : Int) :
    (gap24 df now = Gap24.noData ↔
      windowPairs df now = [] ∨ ∃ r rs, df = r :: rs ∧ inWindow now r = true) ∧
    (∀ v, gap24 df now = Gap24.shown v →
      (v.isSome = true ↔ 2 ≤ (windowPairs df now).length)) := by
  constructor
  · rw [gap24_eq_noData_iff]
    apply or_congr_right
    constructor
    · rintro ⟨p, hp, hn⟩
      have hmem := (List.mem_filter.mp hp).1
      have hwin := (List.mem_filter.mp hp).2
      obtain ⟨rs, hdf⟩ := timeDiffCol_snd_none hmem hn
      exact ⟨p.1, rs, hdf, by simpa using hwin⟩
    · rintro ⟨r, rs, hdf, hw⟩
      refine ⟨(r, none), ?_, rfl⟩
      apply List.mem_filter.mpr
      refine ⟨?_, by simpa using hw⟩
      rw [hdf]
      simp [timeDiffCol]
  · intro v hv
    unfold gap24 at hv
    split at hv
    next =>
      injection hv with hv'
      rw [← hv', ratMean_isSome]
      have hlen : (indexDiffsMinutes ((windowPairs df now).map Prod.fst)).length
          = (windowPairs df now).length - 1 := by
        rw [indexDiffsMinutes_length, List.length_map]
      constructor
      · intro hne
        have hpos := List.length_pos.mpr hne
        omega
      · intro h2 hnil
        rw [hnil] at hlen
        simp only [List.length_nil] at hlen
        omega
    next => exact Gap24.noConfusion hv

/-- Two recent rows one minute apart: the whole table lies in the
24-hour window of `now = 200000`. -/
def dfC4 : List Row :=
  [⟨199000, 5, 38, 37, "c4a", "Türkiye"⟩, ⟨199060, 6, 38, 37, "c4b", "Türkiye"⟩]

/-- C4 counterexample: a window holding two rows on which the code
reports "no data" (the first row's diff is NaN), refuting that "no
data" appears only for windows of 0 or 1 rows. -/
theorem gap24_noData_counterexample :
    (windowPairs dfC4 200000).length = 2 ∧ gap24 dfC4 200000 = Gap24.noData := by
  decide

/-- Three rows: one old row outside the window, then two rows one
minute apart inside it. -/
def dfC4w : List Row :=
  [⟨0, 5, 38, 37, "c4w0", "Türkiye"⟩, ⟨199000, 5, 38, 37, "c4w1", "Türkiye"⟩,
   ⟨199060, 6, 38, 37, "c4w2", "Türkiye"⟩]

/-- Concrete instance of `gap24_amended` on a two-row window. -/
theorem gap24_amended_witness :
    (ratMean (indexDiffsMinutes ((windowPairs dfC4w 200000).map Prod.fst))).isSome = true :=
  ((gap24_amended dfC4w 200000).2 _ (by unfold gap24; exact if_pos (by decide))).mpr
    (by decide)

/-- Two rows one minute apart, both kept by the 24-hour window. -/
def dfC5 : List Row :=
  [⟨199000, 4, 38, 37, "c5a", "Türkiye"⟩, ⟨199060, 3, 38, 37, "c5b", "Türkiye"⟩]

/-- C5 counterexample: on a normalized table of exactly two rows one
minute apart (timestamps 60 seconds apart), both kept by the 24-hour
window, the code reports "no data" instead of a 1.0-minute average. -/
theorem gap24_two_rows_counterexample :
    dfC5.length = 2 ∧
    (windowPairs dfC5 200000).map Prod.fst = dfC5 ∧
    gap24 dfC5 200000 = Gap24.noData := by
  decide

/-- The two one-minute-apart rows preceded by an older row that falls
outside the 24-hour window. -/
def dfC5a : List Row :=
  [⟨0, 5, 38, 37, "c5c", "Türkiye"⟩, ⟨199000, 4, 38, 37, "c5d", "Türkiye"⟩,
   ⟨199060, 3, 38, 37, "c5e", "Türkiye"⟩]

/-- C5 (amended): when the 24-hour window keeps exactly the two rows
one minute apart (an earlier row lies outside the window, so no diff
in the window is undefined), the reported average gap is exactly 1.0
minute. -/
theorem gap24_one_minute_amended :
    (windowPairs dfC5a 200000).map Prod.fst = dfC5a.tail ∧
    gap24 dfC5a 200000 = Gap24.shown (some 1) := by
  refine ⟨by decide, ?_⟩
  unfold gap24
  rw [if_pos (by decide)]
  have hw : (windowPairs dfC5a 200000).map Prod.fst
      = [⟨199000, 4, 38, 37, "c5d", "Türkiye"⟩, ⟨199060, 3, 38, 37, "c5e", "Türkiye"⟩] := by
    decide
  rw [hw]
  simp only [indexDiffsMinutes, indexDiffsGo]
  norm_num [ratMean, List.sum_cons]

/-- C9: the 24-hour gap metric (lines 87-101) is computed over the
full normalized table, so two runs on the same table differing only in
the magnitude bounds display the same 24-hour output. -/
theorem gap24_noninterference (df : List Row) (lo hi lo' hi' : Rat) (now : Int) :
    (dashboard df lo hi now).gap24display = (dashboard df lo' hi' now).gap24display := rfl

/-- Two rows passing the magnitude filter. -/
def dfC3 : List Row :=
  [⟨100, 5, 38, 37, "c3a", "Türkiye"⟩, ⟨200, 6, 38, 37, "c3b", "Türkiye"⟩]

/-- C3 counterexample: the filtered table has 2 rows but the rendered
top-10 list has only 1, because the gap computation of lines 83-85
removed the chronologically first filtered row before line 132 ran. -/
theorem top10_length_counterexample :
    (magFilter 0 8 dfC3).length = 2 ∧
    (dashboard dfC3 0 8 200000).top10.length ≠ min 10 (magFilter 0 8 dfC3).length := by
  decide

/-- C3 (amended): line 132 takes the head of some descending sort of
the mutated downstream table (the filtered table minus its
chronologically first row); pandas' default quicksort being unstable,
the tie order is unspecified, so the statement quantifies over every
list `s` that `sort_values` may return — any permutation of the
downstream table sorted descending by magnitude. The first 10 rows of
any such `s` form a list of length `min 10 m`, where `m` is the
downstream table's row count, sorted descending by magnitude and a
subset of the filtered table. -/
theorem top10_amended (df : List Row) (lo hi : Rat) (s : List Row)
    (hperm : s.Perm (downstreamTable df lo hi)) (hsort : List.Sorted magGe s) :
    (s.take 10).length = min 10 (downstreamTable df lo hi).length ∧
    List.Sorted magGe (s.take 10) ∧
    ∀ r ∈ s.take 10, r ∈ magFilter lo hi df := by
  refine ⟨?_, ?_, ?_⟩
  · rw [List.length_take, hperm.length_eq]
  · exact List.Pairwise.sublist (List.take_sublist _ _) hsort
  · intro r hr
    have h1 : r ∈ s := (List.take_sublist _ _).subset hr
    have h2 : r ∈ downstreamTable df lo hi := hperm.mem_iff.mp h1
    rw [downstreamTable_eq_tail] at h2
    have h3 : r ∈ sortByDate (magFilter lo hi df) :=
      (List.tail_sublist _).subset h2
    simpa [sortByDate] using h3

/-- Three rows passing the magnitude filter. -/
def dfC3w : List Row :=
  [⟨100, 5, 38, 37, "c3w1", "Türkiye"⟩, ⟨200, 6, 38, 37, "c3w2", "Türkiye"⟩,
   ⟨300, 7, 38, 37, "c3w3", "Türkiye"⟩]

/-- Concrete instance of `top10_amended`, taking for `s` the sorted
permutation the rendered dashboard actually uses: the strongest
remaining row of the top-10 list belongs to the filtered table. -/
theorem top10_amended_witness :
    (⟨300, 7, 38, 37, "c3w3", "Türkiye"⟩ : Row) ∈ magFilter 0 8 dfC3w :=
  (top10_amended dfC3w 0 8 (sortByMagDesc (downstreamTable dfC3w 0 8))
      (by decide) (by decide)).2.2
    ⟨300, 7, 38, 37, "c3w3", "Türkiye"⟩ (by decide)

/-- C7 counterexample: a 304 response is a non-success (non-2xx)
status, yet line 25 does not raise on it — the body is parsed and the
call succeeds, refuting "raises on every non-2xx before parsing". -/
theorem fetch_non2xx_counterexample :
    get_earthquake_data (HttpOutcome.response ⟨304, some []⟩) = FetchResult.ok [] := rfl

/-- C7 (amended): the fetcher propagates a transport error, and raises
immediately on an HTTP status in `[400, 600)` — before the body is
parsed, as the result is the same for every body. Statuses outside
that range (1xx/3xx) are not raised on. -/
theorem fetch_raises_on_4xx_5xx (status : Nat) (body : Option (List RawRecord))
    (h4 : 400 ≤ status) (h6 : status < 600) :
    get_earthquake_data (HttpOutcome.response ⟨status, body⟩) = FetchResult.httpError status ∧
    get_earthquake_data HttpOutcome.netError = FetchResult.netError := by
  constructor
  · have hs : raiseForStatus status = true := by
      unfold raiseForStatus
      exact decide_eq_true ⟨h4, h6⟩
    simp [get_earthquake_data, hs]
  · rfl

/-- Concrete instance of `fetch_raises_on_4xx_5xx` at a 404 status. -/
theorem fetch_raises_on_4xx_5xx_witness :
    get_earthquake_data (HttpOutcome.response ⟨404, some []⟩) = FetchResult.httpError 404 ∧
    get_earthquake_data HttpOutcome.netError = FetchResult.netError :=
  fetch_raises_on_4xx_5xx 404 (some []) (by decide) (by decide)

/-- Two rows of which only one passes the magnitude filter `[4, 8]`. -/
def dfC8 : List Row :=
  [⟨100, 2, 38, 37, "c8a", "Türkiye"⟩, ⟨200, 7, 38, 37, "c8b", "Türkiye"⟩]

/-- C8 counterexample: with one filtered row, the file written at line
70 holds 2 rows (the unfiltered table) and the download of line 139
holds 0 rows (the mutation dropped the only filtered row), so neither
CSV has one row per filtered record. -/
theorem csv_export_counterexample :
    (magFilter 4 8 dfC8).length = 1 ∧
    (dashboard dfC8 4 8 0).csvWritten.length ≠ (magFilter 4 8 dfC8).length ∧
    (dashboard dfC8 4 8 0).csvDownload.length ≠ (magFilter 4 8 dfC8).length := by
  decide

/-- C8 (amended): the file written under `earthquake_data.csv` (line
70) has one row per record of the unfiltered normalized table; the CSV
offered for download has one row per record of the mutated downstream
table — the filtered table sorted by date with its first row removed —
and re-parsing its magnitude cells yields exactly that table's
magnitude values in order (hence the same count and multiset). -/
theorem csv_export_amended (df : List Row) (lo hi : Rat) (now : Int) :
    (dashboard df lo hi now).csvWritten = toCsv df ∧
    (dashboard df lo hi now).csvDownload.length = (downstreamTable df lo hi).length ∧
    csvMagnitudes ((dashboard df lo hi now).csvDownload)
      = (downstreamTable df lo hi).map (fun r => encodeRat r.magnitude) ∧
    downstreamTable df lo hi = (sortByDate (magFilter lo hi df)).tail := by
  refine ⟨rfl, ?_, ?_, downstreamTable_eq_tail df lo hi⟩
  · show (toCsv (downstreamTable df lo hi)).length = (downstreamTable df lo hi).length
    simp [toCsv]
  · exact csvMagnitudes_toCsv (downstreamTable df lo hi)

/-- C10: the gap computation of lines 83-85 mutates the filtered
table — it sorts it by date and drops the first row, whose diff is
NaN — so the map, daily-max chart, histogram, top-10 table and CSV
download all consume the filtered table minus its chronologically
first row, while the count shown at line 79 still includes it. -/
theorem mutation_frame_effect (df : List Row) (lo hi : Rat) (now : Int) :
    downstreamTable df lo hi = (sortByDate (magFilter lo hi df)).tail ∧
    (dashboard df lo hi now).count = (magFilter lo hi df).length ∧
    (magFilter lo hi df ≠ [] →
      (dashboard df lo hi now).count = (downstreamTable df lo hi).length + 1) ∧
    (dashboard df lo hi now).mapTable = sortByMagAsc (downstreamTable df lo hi) ∧
    (dashboard df lo hi now).dailyMaxChart = dailyMax (downstreamTable df lo hi) ∧
    (dashboard df lo hi now).magCounts
      = valueCounts ((downstreamTable df lo hi).map Row.magnitude) ∧
    (dashboard df lo hi now).top10 = (sortByMagDesc (downstreamTable df lo hi)).take 10 ∧
    (dashboard df lo hi now).csvDownload = toCsv (downstreamTable df lo hi) := by
  refine ⟨downstreamTable_eq_tail df lo hi, rfl, ?_, rfl, rfl, rfl, rfl, rfl⟩
  intro hne
  have hlen : (downstreamTable df lo hi).length = (magFilter lo hi df).length - 1 := by
    rw [downstreamTable_eq_tail, List.length_tail, sortByDate, List.length_insertionSort]
  have hpos : 0 < (magFilter lo hi df).length := List.length_pos.mpr hne
  show (magFilter lo hi df).length = (downstreamTable df lo hi).length + 1
  omega

/-- Two rows passing the filter, one of which survives the mutation. -/
def dfC10w : List Row :=
  [⟨100, 3, 38, 37, "c10a", "Türkiye"⟩, ⟨200, 5, 38, 37, "c10b", "Türkiye"⟩]

/-- Concrete instance of `mutation_frame_effect`: the displayed count
exceeds the downstream row count by one. -/
theorem mutation_frame_effect_witness :
    (dashboard dfC10w 0 8 0).count = (downstreamTable dfC10w 0 8).length + 1 :=
  (mutation_frame_effect dfC10w 0 8 0).2.2.1 (by decide)

end TeqDashboard
